import Mathlib

/-!
Shallow embedding of the negative-pressure-glasses firmware control core
(src/firmware): configuration constants from `config.h`, the PID heating
controller from `HeatingController.cpp`, the temperature sensor error
handling from `TemperatureSensor.cpp`, the 24-bit raw read and conversion
from `PressureSensor.cpp`, the pump controller from `PumpController.cpp`,
and one cycle of each FreeRTOS task body from `main.cpp`.

Floating-point values are modelled by `ℚ`; a possibly-NaN float is
`Option ℚ` with `none` standing for NaN.  Machine-integer wrap is made
explicit (`% 256` for `uint8_t` counters, `% 4294967296` for the
`millis()` clock) where the source relies on it.
-/

namespace NPG

/-! ## Configuration constants (src/firmware/include/config.h) -/

/-- Default target temperature, `TEMP_TARGET_DEFAULT` (40.0 °C). -/
def TEMP_TARGET_DEFAULT : ℚ := 40

/-- Upper bound accepted by `setTargetTemperature`, `TEMP_MAX_LIMIT` (50.0 °C). -/
def TEMP_MAX_LIMIT : ℚ := 50

/-- Lower bound accepted by `setTargetTemperature`, `TEMP_MIN_LIMIT` (35.0 °C). -/
def TEMP_MIN_LIMIT : ℚ := 35

/-- Emergency-stop temperature threshold, `TEMP_EMERGENCY_STOP` (50.0 °C). -/
def TEMP_EMERGENCY_STOP : ℚ := 50

/-- Default target negative pressure, `PRESSURE_TARGET_DEFAULT` (15.0 mmHg). -/
def PRESSURE_TARGET_DEFAULT : ℚ := 15

/-- Number of pressure gears, `PRESSURE_NUM_GEARS` (10). -/
def PRESSURE_NUM_GEARS : ℕ := 10

/-! ## HeatingController (src/firmware/src/HeatingController.cpp,
HeatingController.h) -/

/-- Integral clamp bound, `HeatingController::INTEGRAL_MAX` (100.0). -/
def INTEGRAL_MAX : ℚ := 100

/-- Minimum PID output, `HeatingController::OUTPUT_MIN` (0). -/
def OUTPUT_MIN : ℚ := 0

/-- Maximum PID output, `HeatingController::OUTPUT_MAX` (255). -/
def OUTPUT_MAX : ℚ := 255

/-- State of a `HeatingController` object.  `pwm` mirrors the value last
written to the heater's PWM channel by `ledcWrite`; `lastUpdateTime` models
the function-static `lastUpdateTime` of `update` (milliseconds, `uint32_t`,
0 until the first invocation that reaches the PID computation). -/
structure HeatingController where
  targetTemp : ℚ
  lastError : ℚ
  integral : ℚ
  currentOutput : ℕ
  enabled : Bool
  kp : ℚ
  ki : ℚ
  kd : ℚ
  lastUpdateTime : ℕ
  pwm : ℕ
  deriving DecidableEq

/-- Constructor state of `HeatingController` (member initializer list plus
in-class initializers kp=25, ki=0.5, kd=5), with `pwm = 0` as written by
`begin()` and the static `lastUpdateTime` at its initial 0. -/
def initHeating : HeatingController :=
  { targetTemp := TEMP_TARGET_DEFAULT
    lastError := 0
    integral := 0
    currentOutput := 0
    enabled := false
    kp := 25
    ki := 1/2
    kd := 5
    lastUpdateTime := 0
    pwm := 0 }

/-- `HeatingController::calculatePID`: proportional term, integral
accumulation clamped to `±INTEGRAL_MAX`, derivative from the previous
error, returning the updated controller state and the raw (unclamped)
sum `p + i + d`. -/
def HeatingController.calculatePID (c : HeatingController) (error dt : ℚ) :
    HeatingController × ℚ :=
  let p := c.kp * error
  let integral0 := c.integral + error * dt
  let integral1 := if INTEGRAL_MAX < integral0 then INTEGRAL_MAX else integral0
  let integral2 := if integral1 < -INTEGRAL_MAX then -INTEGRAL_MAX else integral1
  let i := c.ki * integral2
  let d := c.kd * (error - c.lastError) / dt
  ({ c with integral := integral2, lastError := error }, p + i + d)

/-- Time step used by `HeatingController::update`:
`dt = (currentTime - lastUpdateTime) / 1000.0f` with `uint32_t`
wraparound subtraction on the `millis()` clock, overridden to 1.0 s when
`lastUpdateTime == 0` (the first-invocation sentinel). -/
def pidDt (lastUpdateTime now : ℕ) : ℚ :=
  let dtms : ℕ := (now % 4294967296 + (4294967296 - lastUpdateTime % 4294967296)) % 4294967296
  if lastUpdateTime = 0 then 1 else (dtms : ℚ) / 1000

/-- `HeatingController::emergencyStop`: disable, zero the output and the
PWM channel, and reset the PID history. -/
def HeatingController.emergencyStop (c : HeatingController) : HeatingController :=
  { c with enabled := false, currentOutput := 0, pwm := 0, integral := 0, lastError := 0 }

/-- `HeatingController::update`: returns 0 with output and PWM zeroed when
disabled; fires `emergencyStop` when `current_temp >= TEMP_EMERGENCY_STOP`;
otherwise runs the PID on `error = targetTemp - current_temp` with the
elapsed-time `dt`, clamps the raw sum to `[OUTPUT_MIN, OUTPUT_MAX]`
(two sequential `if`s in the source), truncates to `uint8_t`
(`(uint8_t)output`, i.e. floor for the clamped non-negative value), writes
it to the PWM channel and returns it.  `now` is the `millis()` value. -/
def HeatingController.update (c : HeatingController) (now : ℕ) (current_temp : ℚ) :
    HeatingController × ℕ :=
  if c.enabled = false then
    ({ c with currentOutput := 0, pwm := 0 }, 0)
  else if TEMP_EMERGENCY_STOP ≤ current_temp then
    (c.emergencyStop, 0)
  else
    let error := c.targetTemp - current_temp
    let dt := pidDt c.lastUpdateTime now
    let c1 := { c with lastUpdateTime := now % 4294967296 }
    let pr := c1.calculatePID error dt
    let output := pr.2
    let o1 := if output < OUTPUT_MIN then OUTPUT_MIN else output
    let o2 := if OUTPUT_MAX < o1 then OUTPUT_MAX else o1
    let duty : ℕ := ⌊o2⌋.toNat
    ({ pr.1 with currentOutput := duty, pwm := duty }, duty)

/-- `HeatingController::enable`: set the enabled flag and reset the PID
history. -/
def HeatingController.enable (c : HeatingController) : HeatingController :=
  { c with enabled := true, integral := 0, lastError := 0 }

/-- `HeatingController::disable`: clear the enabled flag and zero the
output and PWM channel; the PID history is left untouched. -/
def HeatingController.disable (c : HeatingController) : HeatingController :=
  { c with enabled := false, currentOutput := 0, pwm := 0 }

/-- `HeatingController::reset`: reset the PID history and the recorded
output (no PWM write occurs in the source). -/
def HeatingController.reset (c : HeatingController) : HeatingController :=
  { c with integral := 0, lastError := 0, currentOutput := 0 }

/-- `HeatingController::setTargetTemperature`: accept the new target and
reset the PID history only when the target lies within
`[TEMP_MIN_LIMIT, TEMP_MAX_LIMIT]`; otherwise leave everything unchanged. -/
def HeatingController.setTargetTemperature (c : HeatingController) (target : ℚ) :
    HeatingController :=
  if TEMP_MIN_LIMIT ≤ target ∧ target ≤ TEMP_MAX_LIMIT then
    { c with targetTemp := target, integral := 0, lastError := 0 }
  else c

/-- `HeatingController::setPID`: install new gains and zero the integral;
`lastError` is not touched. -/
def HeatingController.setPID (c : HeatingController) (p i d : ℚ) :
    HeatingController :=
  { c with kp := p, ki := i, kd := d, integral := 0 }

/-! ## TemperatureSensor (src/firmware/src/TemperatureSensor.cpp) -/

/-- Consecutive-failure threshold `TemperatureSensor::MAX_ERROR_COUNT`
(`static const uint8_t MAX_ERROR_COUNT = 3` in `TemperatureSensor.h`,
found as the second document inside
src/firmware/include/PressureSensor.h; `PressureSensor.h` declares the
same threshold for the pressure sensor). -/
def MAX_ERROR_COUNT : ℕ := 3

/-- State of a `TemperatureSensor`: last accepted reading (`lastTemp`,
a float that is NaN-able, hence `Option ℚ`) and the consecutive-error
counter (`errorCount`, a `uint8_t`). -/
structure TemperatureSensor where
  lastTemp : Option ℚ
  errorCount : ℕ
  deriving DecidableEq

/-- Constructor state of `TemperatureSensor`: `lastTemp = 0.0f`,
`errorCount = 0`. -/
def initTempSensor : TemperatureSensor :=
  { lastTemp := some 0, errorCount := 0 }

/-- `TemperatureSensor::readTemperature` applied to one raw thermocouple
reading (`none` = NaN): a NaN reading increments the `uint8_t` error
counter and returns NaN once the counter has reached `MAX_ERROR_COUNT`,
otherwise the last accepted value; a valid reading resets the counter,
stores the value and returns it. -/
def TemperatureSensor.readTemperature (s : TemperatureSensor) (raw : Option ℚ) :
    TemperatureSensor × Option ℚ :=
  match raw with
  | none =>
      let ec := (s.errorCount + 1) % 256
      if MAX_ERROR_COUNT ≤ ec then ({ s with errorCount := ec }, none)
      else ({ s with errorCount := ec }, s.lastTemp)
  | some t => ({ lastTemp := some t, errorCount := 0 }, some t)

/-- `TemperatureSensor::isValid`: the error counter is below the threshold
and the stored last reading is not NaN. -/
def TemperatureSensor.isValid (s : TemperatureSensor) : Bool :=
  decide (s.errorCount < MAX_ERROR_COUNT) && s.lastTemp.isSome

/-- Feeds a list of raw readings through `readTemperature`, collecting the
returned values and the final sensor state. -/
def readSeq (s : TemperatureSensor) : List (Option ℚ) → TemperatureSensor × List (Option ℚ)
  | [] => (s, [])
  | r :: rs =>
      let pr := s.readTemperature r
      let rest := readSeq pr.1 rs
      (rest.1, pr.2 :: rest.2)

/-! ## PressureSensor raw read and conversion
(src/firmware/src/PressureSensor.cpp) -/

/-- Error marker `0x7FFFFFFF` returned by `readRaw24bit` on I2C failure. -/
def ERROR_SENTINEL : ℤ := 2147483647

/-- Transfer-function coefficient `PressureSensor::COEF_A` (7.5). -/
def COEF_A : ℚ := 15/2

/-- Transfer-function coefficient `PressureSensor::COEF_B` (-3.75). -/
def COEF_B : ℚ := -15/4

/-- Divisor `PressureSensor::DIVISOR` (8388608.0 = 2^23). -/
def DIVISOR : ℚ := 8388608

/-- `PressureSensor::readRaw24bit`.  `bytes = none` models an I2C failure
(failed write of the read pointer, or fewer than 3 bytes available), which
returns the sentinel `0x7FFFFFFF`.  On success the three `uint8_t` bytes
are concatenated into a 24-bit value; when bit 23 is set
(`raw24 & 0x800000`), the source sign-extends with `raw24 |= 0xFF000000`,
which on a 32-bit two's-complement `int32_t` holding a value below `2^24`
equals subtracting `2^24`. -/
def readRaw24bit (bytes : Option (ℕ × ℕ × ℕ)) : ℤ :=
  match bytes with
  | none => ERROR_SENTINEL
  | some (byteH, byteM, byteL) =>
      let raw24 : ℕ := byteH * 65536 + byteM * 256 + byteL
      if raw24.testBit 23 then (raw24 : ℤ) - 16777216 else (raw24 : ℤ)

/-- `PressureSensor::convertToPressure`: NaN on the error marker, otherwise
`COEF_A * (raw24 / DIVISOR) + COEF_B - zeroOffset`. -/
def convertToPressure (zeroOffset : ℚ) (raw24 : ℤ) : Option ℚ :=
  if raw24 = ERROR_SENTINEL then none
  else some (COEF_A * ((raw24 : ℚ) / DIVISOR) + COEF_B - zeroOffset)

/-! ## PumpController (src/unnamed/part_003 = PumpController.cpp) -/

/-- State of a `PumpController`: requested speed percentage, running flag,
and the value last written to the pump's PWM channel. -/
structure PumpController where
  currentSpeed : ℕ
  running : Bool
  pwm : ℕ
  deriving DecidableEq

/-- Constructor state of `PumpController`, with `pwm = 0` from `begin()`. -/
def initPump : PumpController :=
  { currentSpeed := 0, running := false, pwm := 0 }

/-- Arduino `map(x, inMin, inMax, outMin, outMax)` on non-negative integer
arguments. -/
def mapRange (x inMin inMax outMin outMax : ℕ) : ℕ :=
  (x - inMin) * (outMax - outMin) / (inMax - inMin) + outMin

/-- `PumpController::setSpeed`: clip the request to 100 %, record it, and
write the mapped PWM value only while running. -/
def PumpController.setSpeed (p : PumpController) (speed : ℕ) : PumpController :=
  let s := if 100 < speed then 100 else speed
  if p.running then
    { p with currentSpeed := s, pwm := mapRange s 0 100 0 255 }
  else
    { p with currentSpeed := s }

/-- `PumpController::start`: set the running flag and drive the PWM channel
at the recorded speed. -/
def PumpController.start (p : PumpController) : PumpController :=
  { p with running := true, pwm := mapRange p.currentSpeed 0 100 0 255 }

/-- `PumpController::stop`: clear the running flag and zero the PWM
channel (the recorded speed is kept). -/
def PumpController.stop (p : PumpController) : PumpController :=
  { p with running := false, pwm := 0 }

/-! ## Shared system state and task cycles (src/firmware/src/main.cpp) -/

/-- The shared `SystemState` struct `sysState`. -/
structure SystemState where
  currentTemp : ℚ
  targetTemp : ℚ
  currentPressure : ℚ
  targetPressure : ℚ
  pressureGear : ℕ
  systemEnabled : Bool
  emergencyStop : Bool
  overTemp : Bool
  deriving DecidableEq

/-- `initializeSystem()`: safe startup defaults (gear 5, enabled, no
emergency stop, no over-temperature). -/
def initSysState : SystemState :=
  { currentTemp := 0
    targetTemp := TEMP_TARGET_DEFAULT
    currentPressure := 0
    targetPressure := PRESSURE_TARGET_DEFAULT
    pressureGear := 5
    systemEnabled := true
    emergencyStop := false
    overTemp := false }

/-- Buzzer tones distinguished by the user-interface code: `beep`
(confirmation), `warning` (rejection), `error` (fault alarm). -/
inductive Tone where
  | beep
  | warning
  | error
  deriving DecidableEq

/-- Combined state touched by the task bodies: the shared `sysState`, the
heating controller and the pump controller. -/
structure Sys where
  st : SystemState
  heat : HeatingController
  pump : PumpController
  deriving DecidableEq

/-- System state right after `setup()`: `initializeSystem()` state, the
heating controller after `setTargetTemperature(TEMP_TARGET_DEFAULT)`, and
the pump controller fresh from `begin()`. -/
def initSys : Sys :=
  { st := initSysState
    heat := initHeating.setTargetTemperature TEMP_TARGET_DEFAULT
    pump := initPump }

/-- One cycle of `taskTemperatureControl`.  `reading` is the value
returned by `tempSensor->readTemperature()` (`none` = NaN), `now` the
`millis()` value, `gotMutex` whether the 10 ms bounded wait for the
temperature mutex succeeded.  A NaN reading only logs and leaves all state
unchanged.  On a valid reading: update `currentTemp` (under the mutex),
run the PID update when enabled and not emergency-stopped (else disable
the heater), then perform the over-temperature check. -/
def tempCycle (s : Sys) (reading : Option ℚ) (now : ℕ) (gotMutex : Bool) : Sys :=
  match reading with
  | none => s
  | some t =>
      let s1 := if gotMutex then { s with st := { s.st with currentTemp := t } } else s
      let s2 :=
        if s1.st.systemEnabled = true ∧ s1.st.emergencyStop = false then
          { s1 with heat := (s1.heat.update now t).1 }
        else
          { s1 with heat := s1.heat.disable }
      if TEMP_EMERGENCY_STOP ≤ t then
        { s2 with
            st := { s2.st with overTemp := true, emergencyStop := true },
            heat := s2.heat.emergencyStop }
      else s2

/-- One cycle of `taskPressureControl`.  `reading` is the value returned
by `pressureSensor->readPressure()` (`none` = NaN), `gotMutex` whether the
bounded wait for the pressure mutex succeeded.  A NaN reading only logs
and leaves all state unchanged.  On a valid reading: update
`currentPressure` (under the mutex); when enabled and not
emergency-stopped, derive the gear-indexed target and pick one of three
pump speeds from the error; otherwise stop the pump. -/
def pressureCycle (s : Sys) (reading : Option ℚ) (gotMutex : Bool) : Sys :=
  match reading with
  | none => s
  | some p =>
      let s1 := if gotMutex then { s with st := { s.st with currentPressure := p } } else s
      if s1.st.systemEnabled = true ∧ s1.st.emergencyStop = false then
        let gearPercent : ℚ := (s1.st.pressureGear : ℚ) / (PRESSURE_NUM_GEARS : ℚ)
        let target := PRESSURE_TARGET_DEFAULT * gearPercent
        let s2 := { s1 with st := { s1.st with targetPressure := target } }
        let error := target - p
        let pump2 :=
          if 2 < error then s2.pump.setSpeed 80
          else if error < -2 then s2.pump.setSpeed 40
          else s2.pump.setSpeed 60
        { s2 with pump := pump2 }
      else
        { s1 with pump := s1.pump.stop }

/-- Gear-up handling in `taskUserInterface` (UP button `wasPressed`):
increment below `PRESSURE_NUM_GEARS` with a confirmation beep, otherwise
leave the gear unchanged with a warning tone. -/
def gearUpEvent (gear : ℕ) : ℕ × Tone :=
  if gear < PRESSURE_NUM_GEARS then (gear + 1, Tone.beep)
  else (gear, Tone.warning)

/-- Gear-down handling in `taskUserInterface` (DOWN button `wasPressed`):
decrement above 1 with a confirmation beep, otherwise leave the gear
unchanged with a warning tone. -/
def gearDownEvent (gear : ℕ) : ℕ × Tone :=
  if 1 < gear then (gear - 1, Tone.beep)
  else (gear, Tone.warning)

/-- STOP-button handling of `taskUserInterface`.  `stopHeld` is
`btnStop->isPressed()`.  Held: trigger the emergency stop once (stop
heater and pump, warning tone).  Released: clear the emergency stop and
restart heater and pump only when no over-temperature latch is set
(beep). -/
def uiStopPhase (s : Sys) (stopHeld : Bool) : Sys × List Tone :=
  if stopHeld then
    if s.st.emergencyStop = false then
      ({ s with
          st := { s.st with emergencyStop := true, systemEnabled := false },
          heat := s.heat.emergencyStop,
          pump := s.pump.stop }, [Tone.warning])
    else (s, [])
  else
    if s.st.emergencyStop = true ∧ s.st.overTemp = false then
      ({ s with
          st := { s.st with emergencyStop := false, systemEnabled := true },
          heat := s.heat.enable,
          pump := s.pump.start }, [Tone.beep])
    else (s, [])

/-- UP-button handling of `taskUserInterface`: on a `wasPressed` edge,
apply `gearUpEvent` and emit its tone. -/
def uiGearUpPhase (s : Sys) (upEvent : Bool) : Sys × List Tone :=
  if upEvent then
    let pr := gearUpEvent s.st.pressureGear
    ({ s with st := { s.st with pressureGear := pr.1 } }, [pr.2])
  else (s, [])

/-- DOWN-button handling of `taskUserInterface`: on a `wasPressed` edge,
apply `gearDownEvent` and emit its tone. -/
def uiGearDownPhase (s : Sys) (downEvent : Bool) : Sys × List Tone :=
  if downEvent then
    let pr := gearDownEvent s.st.pressureGear
    ({ s with st := { s.st with pressureGear := pr.1 } }, [pr.2])
  else (s, [])

/-- One full cycle of `taskUserInterface`: stop handling, then the UP and
DOWN gear events, collecting all tones emitted. -/
def uiCycle (s : Sys) (stopHeld upEvent downEvent : Bool) : Sys × List Tone :=
  let step1 := uiStopPhase s stopHeld
  let step2 := uiGearUpPhase step1.1 upEvent
  let step3 := uiGearDownPhase step2.1 downEvent
  (step3.1, step1.2 ++ step2.2 ++ step3.2)

/-- One cycle of any of the four tasks, with its external inputs. -/
inductive Step where
  | temp (reading : Option ℚ) (now : ℕ) (gotMutex : Bool)
  | pressure (reading : Option ℚ) (gotMutex : Bool)
  | ui (stopHeld upEvent downEvent : Bool)
  | safety

/-- Effect of one task cycle on the combined state.  `taskSafetyMonitor`
only sounds the buzzer and never mutates `sysState` or the actuators. -/
def stepSys (s : Sys) : Step → Sys
  | Step.temp r now m => tempCycle s r now m
  | Step.pressure r m => pressureCycle s r m
  | Step.ui a b c => (uiCycle s a b c).1
  | Step.safety => s

/-! ## Theorems -/

/-- The duty cycle produced from a raw PID sum by the two sequential
clamps of `HeatingController::update` and the `uint8_t` truncation never
exceeds 255. -/
theorem floor_clamp_toNat_le (x : ℚ) :
    (⌊if OUTPUT_MAX < (if x < OUTPUT_MIN then OUTPUT_MIN else x) then OUTPUT_MAX
      else if x < OUTPUT_MIN then OUTPUT_MIN else x⌋).toNat ≤ 255 := by
  have h255 : (if OUTPUT_MAX < (if x < OUTPUT_MIN then OUTPUT_MIN else x) then OUTPUT_MAX
      else if x < OUTPUT_MIN then OUTPUT_MIN else x) ≤ (255 : ℚ) := by
    unfold OUTPUT_MAX OUTPUT_MIN
    split_ifs with h1 h2 h3 <;> simp only [not_lt] at * <;> linarith
  have hf : ⌊(if OUTPUT_MAX < (if x < OUTPUT_MIN then OUTPUT_MIN else x) then OUTPUT_MAX
      else if x < OUTPUT_MIN then OUTPUT_MIN else x)⌋ ≤ (255 : ℤ) := by
    have := Int.floor_le_floor h255
    simpa using this
  exact Int.toNat_le.mpr hf

/-- C4: for every controller state (hence every value of the gains, the
integral and the previous error) and every input temperature, the duty
cycle returned by `HeatingController::update` lies within `[0, OUTPUT_MAX]`
= `[0, 255]`: the raw PID sum is clamped to `[OUTPUT_MIN, OUTPUT_MAX]`
before the conversion to the returned duty cycle. -/
theorem heating_update_output_in_range (c : HeatingController) (now : ℕ) (t : ℚ) :
    0 ≤ (c.update now t).2 ∧ (c.update now t).2 ≤ 255 := by
  refine ⟨Nat.zero_le _, ?_⟩
  unfold HeatingController.update
  split
  · simp
  · split
    · simp
    · exact floor_clamp_toNat_le _

/-- C10: every 3-byte success of `readRaw24bit` yields the 24-bit
two's-complement value, always within `[-8388608, 8388607]` and therefore
never equal to the I2C-failure sentinel `0x7FFFFFFF`, which lies above the
range and which `convertToPressure` alone maps to NaN; an I2C failure
returns exactly the sentinel. -/
theorem readRaw24bit_range (h m l : ℕ) (hh : h < 256) (hm : m < 256) (hl : l < 256)
    (z : ℚ) :
    -8388608 ≤ readRaw24bit (some (h, m, l)) ∧
    readRaw24bit (some (h, m, l)) ≤ 8388607 ∧
    readRaw24bit (some (h, m, l)) ≠ ERROR_SENTINEL ∧
    (convertToPressure z (readRaw24bit (some (h, m, l)))).isSome = true ∧
    readRaw24bit none = ERROR_SENTINEL ∧
    convertToPressure z ERROR_SENTINEL = none ∧
    (8388607 : ℤ) < ERROR_SENTINEL := by
  have hraw : h * 65536 + m * 256 + l < 16777216 := by omega
  have hrange : -8388608 ≤ readRaw24bit (some (h, m, l)) ∧
      readRaw24bit (some (h, m, l)) ≤ 8388607 := by
    unfold readRaw24bit
    dsimp only
    by_cases hb : (h * 65536 + m * 256 + l).testBit 23 = true
    · rw [if_pos hb]
      rw [Nat.testBit_to_div_mod] at hb
      simp only [decide_eq_true_eq] at hb
      constructor <;> omega
    · rw [if_neg hb]
      rw [Nat.testBit_to_div_mod] at hb
      simp only [decide_eq_true_eq] at hb
      constructor <;> omega
  have hne : readRaw24bit (some (h, m, l)) ≠ ERROR_SENTINEL := by
    intro heq
    have := hrange.2
    rw [heq] at this
    unfold ERROR_SENTINEL at this
    omega
  refine ⟨hrange.1, hrange.2, hne, ?_, rfl, ?_, by unfold ERROR_SENTINEL; omega⟩
  · unfold convertToPressure
    rw [if_neg hne]
    rfl
  · unfold convertToPressure
    rw [if_pos rfl]

/-- C6: for the raw read sequence [12.0, NaN, NaN, NaN] (from any sensor
state) `readTemperature` returns [12.0, 12.0, 12.0, NaN]; starting from the
constructor state, `isValid()` is still true after the first three reads
and flips to false exactly on the 4th read, where the error counter has
reached `MAX_ERROR_COUNT`; every valid read resets the counter to 0 and is
returned as-is; and a single NaN read returns the last accepted value and
never flips validity, also when followed by a valid read. -/
theorem tempSensor_error_handling :
    ((∀ s : TemperatureSensor,
      (readSeq s [some 12, none, none, none]).2
        = [some 12, some 12, some 12, none]) ∧
    ((readSeq initTempSensor [some 12]).1).isValid = true ∧
    ((readSeq initTempSensor [some 12, none]).1).isValid = true ∧
    ((readSeq initTempSensor [some 12, none, none]).1).isValid = true ∧
    ((readSeq initTempSensor [some 12, none, none, none]).1).isValid = false ∧
    ((readSeq initTempSensor [some 12, none, none, none]).1).errorCount
      = MAX_ERROR_COUNT) ∧
    (∀ (s : TemperatureSensor) (v : ℚ),
      ((s.readTemperature (some v)).1).errorCount = 0 ∧
      (s.readTemperature (some v)).2 = some v) ∧
    (∀ s : TemperatureSensor, s.errorCount = 0 → s.lastTemp.isSome = true →
      (s.readTemperature none).2 = s.lastTemp ∧
      ((s.readTemperature none).1).isValid = true ∧
      ∀ v : ℚ, (((s.readTemperature none).1.readTemperature (some v)).1).isValid
        = true) := by
  refine ⟨⟨fun s => rfl, rfl, rfl, rfl, rfl, rfl⟩, fun s v => ⟨rfl, rfl⟩, ?_⟩
  intro s h0 hsome
  unfold TemperatureSensor.readTemperature TemperatureSensor.isValid MAX_ERROR_COUNT
  simp [h0, hsome]

/-- Witness for C6, instantiating the quantified clauses at the
constructor state and the reading 12.0. -/
theorem tempSensor_error_handling_witness :
    (readSeq initTempSensor [some 12, none, none, none]).2
      = [some 12, some 12, some 12, none] ∧
    ((initTempSensor.readTemperature (some 12)).1).errorCount = 0 ∧
    ((initTempSensor.readTemperature none).1).isValid = true :=
  ⟨tempSensor_error_handling.1.1 initTempSensor,
   (tempSensor_error_handling.2.1 initTempSensor 12).1,
   (tempSensor_error_handling.2.2 initTempSensor rfl rfl).2.1⟩

/-- C1: in any temperature-task cycle whose reading is valid (not NaN) and
at least `TEMP_EMERGENCY_STOP`, the same cycle ends with the heater PWM
output 0 (and recorded duty 0), the controller disabled, and both
`sysState.overTemp` and `sysState.emergencyStop` true. -/
theorem tempCycle_overtemp_trip (s : Sys) (t : ℚ) (now : ℕ) (gotMutex : Bool)
    (ht : TEMP_EMERGENCY_STOP ≤ t) :
    (tempCycle s (some t) now gotMutex).heat.pwm = 0 ∧
    (tempCycle s (some t) now gotMutex).heat.currentOutput = 0 ∧
    (tempCycle s (some t) now gotMutex).heat.enabled = false ∧
    (tempCycle s (some t) now gotMutex).st.overTemp = true ∧
    (tempCycle s (some t) now gotMutex).st.emergencyStop = true := by
  unfold tempCycle
  dsimp only
  rw [if_pos ht]
  exact ⟨rfl, rfl, rfl, rfl, rfl⟩

/-- Witness for C1 at the startup state with a 55 °C reading. -/
theorem tempCycle_overtemp_trip_witness :
    (tempCycle initSys (some 55) 1000 true).heat.pwm = 0 ∧
    (tempCycle initSys (some 55) 1000 true).heat.currentOutput = 0 ∧
    (tempCycle initSys (some 55) 1000 true).heat.enabled = false ∧
    (tempCycle initSys (some 55) 1000 true).st.overTemp = true ∧
    (tempCycle initSys (some 55) 1000 true).st.emergencyStop = true :=
  tempCycle_overtemp_trip initSys 55 1000 true (by norm_num [TEMP_EMERGENCY_STOP])

/-- A system state with the emergency stop latched while the pump is still
being driven (speed 60 %, PWM 153).  It is reachable: after an operator
stop/release pair the pump is running; a pressure cycle commands a speed;
an over-temperature trip in the temperature task then sets
`sysState.emergencyStop` without touching the pump. -/
def sysEstopPumpOn : Sys :=
  { st := { initSysState with emergencyStop := true },
    heat := initHeating,
    pump := { currentSpeed := 60, running := true, pwm := 153 } }

/-- C2 counterexample: with `sysState.emergencyStop = true` but a NaN
pressure reading, a pressure-task control period (even five of them)
leaves the pump PWM at 153, not 0 — the NaN branch skips all actuation, so
the claim's "regardless of whether that period's sensor readings are valid
(NaN) or not" fails on the code. -/
theorem emergencyStop_nan_keeps_pump_on :
    sysEstopPumpOn.st.emergencyStop = true ∧
    (stepSys sysEstopPumpOn (Step.pressure none true)).pump.pwm = 153 ∧
    ((List.replicate 5 (Step.pressure none true)).foldl stepSys
        sysEstopPumpOn).pump.pwm = 153 ∧
    (153 : ℕ) ≠ 0 :=
  ⟨rfl, rfl, rfl, by decide⟩

/-- C2 amended: with `sysState.emergencyStop = true`, a pressure-task
cycle with a valid reading forces the pump PWM to 0 (and stops it), and a
temperature-task cycle with a valid reading forces the heater duty and PWM
to 0; a cycle with a NaN reading leaves the whole state — including the
actuator outputs — unchanged. -/
theorem emergencyStop_valid_cycle_forces_outputs (s : Sys) (p t : ℚ) (now : ℕ)
    (m1 m2 : Bool) (hes : s.st.emergencyStop = true) :
    (pressureCycle s (some p) m1).pump.pwm = 0 ∧
    (pressureCycle s (some p) m1).pump.running = false ∧
    (tempCycle s (some t) now m2).heat.pwm = 0 ∧
    (tempCycle s (some t) now m2).heat.currentOutput = 0 ∧
    pressureCycle s none m1 = s ∧
    tempCycle s none now m2 = s := by
  have hpr : ∀ m : Bool, (pressureCycle s (some p) m).pump.pwm = 0 ∧
      (pressureCycle s (some p) m).pump.running = false := by
    intro m
    cases m <;>
      · unfold pressureCycle
        dsimp only
        split_ifs with h1 h2 <;>
          simp_all [PumpController.stop]
  have htc : ∀ m : Bool, (tempCycle s (some t) now m).heat.pwm = 0 ∧
      (tempCycle s (some t) now m).heat.currentOutput = 0 := by
    intro m
    cases m <;>
      · unfold tempCycle
        dsimp only
        split_ifs with h1 h2 <;>
          simp_all [HeatingController.disable, HeatingController.emergencyStop]
  exact ⟨(hpr m1).1, (hpr m1).2, (htc m2).1, (htc m2).2, rfl, rfl⟩

/-- Witness for the amended C2 at the latched state `sysEstopPumpOn`. -/
theorem emergencyStop_valid_cycle_forces_outputs_witness :
    (pressureCycle sysEstopPumpOn (some 3) true).pump.pwm = 0 ∧
    (pressureCycle sysEstopPumpOn (some 3) true).pump.running = false ∧
    (tempCycle sysEstopPumpOn (some 30) 500 true).heat.pwm = 0 ∧
    (tempCycle sysEstopPumpOn (some 30) 500 true).heat.currentOutput = 0 ∧
    pressureCycle sysEstopPumpOn none true = sysEstopPumpOn ∧
    tempCycle sysEstopPumpOn none 500 true = sysEstopPumpOn :=
  emergencyStop_valid_cycle_forces_outputs sysEstopPumpOn 3 30 500 true true rfl

/-- One task cycle preserves a latched over-temperature fault together
with the emergency stop that accompanies it: no cycle writes `false` into
either flag while `overTemp` is set. -/
theorem stepSys_latch (s : Sys) (e : Step) (hov : s.st.overTemp = true)
    (hes : s.st.emergencyStop = true) :
    (stepSys s e).st.overTemp = true ∧ (stepSys s e).st.emergencyStop = true := by
  cases e with
  | temp r now m =>
      cases r with
      | none => exact ⟨hov, hes⟩
      | some t =>
          cases m <;>
            · unfold stepSys tempCycle
              dsimp only
              split_ifs with h1 h2 <;> simp_all
  | pressure r m =>
      cases r with
      | none => exact ⟨hov, hes⟩
      | some p =>
          cases m <;>
            · unfold stepSys pressureCycle
              dsimp only
              split_ifs with h1 h2 <;> simp_all
  | ui a b c =>
      have hs1 : (uiStopPhase s a).1 = s := by
        unfold uiStopPhase
        split_ifs with h1 h2 h3 <;> first | rfl | simp_all
      unfold stepSys uiCycle
      dsimp only
      rw [hs1]
      unfold uiGearUpPhase uiGearDownPhase
      split_ifs <;> exact ⟨hov, hes⟩
  | safety => exact ⟨hov, hes⟩

/-- C3: once `sysState.overTemp` is true (together with the
`emergencyStop` flag that the trip sets in the same statement block), any
sequence of further task cycles leaves `overTemp` true and never sets
`emergencyStop` back to false — in particular the user-interface
stop-release path is guarded by `overTemp` being false. -/
theorem overTemp_latch_sticky (s : Sys) (steps : List Step)
    (hov : s.st.overTemp = true) (hes : s.st.emergencyStop = true) :
    (steps.foldl stepSys s).st.overTemp = true ∧
    (steps.foldl stepSys s).st.emergencyStop = true := by
  induction steps generalizing s with
  | nil => exact ⟨hov, hes⟩
  | cons e rest ih =>
      have h := stepSys_latch s e hov hes
      exact ih (stepSys s e) h.1 h.2

/-- A system state with the over-temperature fault latched, as left behind
by the trip in the temperature task. -/
def sysLatched : Sys :=
  { st := { initSysState with overTemp := true, emergencyStop := true },
    heat := initHeating.emergencyStop,
    pump := initPump }

/-- Witness for C3: from the latched state, a stop-released user-interface
cycle followed by a safety cycle clears neither flag. -/
theorem overTemp_latch_sticky_witness :
    (([Step.ui false false false, Step.safety].foldl stepSys sysLatched).st.overTemp
      = true) ∧
    (([Step.ui false false false, Step.safety].foldl stepSys sysLatched).st.emergencyStop
      = true) :=
  overTemp_latch_sticky sysLatched [Step.ui false false false, Step.safety] rfl rfl

/-- Gear-up keeps the gear within `[1, PRESSURE_NUM_GEARS]`. -/
theorem gearUpEvent_bounds (g : ℕ) (h1 : 1 ≤ g) (h2 : g ≤ PRESSURE_NUM_GEARS) :
    1 ≤ (gearUpEvent g).1 ∧ (gearUpEvent g).1 ≤ PRESSURE_NUM_GEARS := by
  unfold gearUpEvent PRESSURE_NUM_GEARS at *
  split_ifs <;> constructor <;> omega

/-- Gear-down keeps the gear within `[1, PRESSURE_NUM_GEARS]`. -/
theorem gearDownEvent_bounds (g : ℕ) (h1 : 1 ≤ g) (h2 : g ≤ PRESSURE_NUM_GEARS) :
    1 ≤ (gearDownEvent g).1 ∧ (gearDownEvent g).1 ≤ PRESSURE_NUM_GEARS := by
  unfold gearDownEvent PRESSURE_NUM_GEARS at *
  split_ifs <;> constructor <;> omega

/-- C5: the pressure gear starts at 5 and every user-interface cycle keeps
it within `[1, PRESSURE_NUM_GEARS]`; a gear-up event at the maximum leaves
the gear unchanged with the warning tone and never the beep; a gear-down
event at 1 does likewise; accepted events move the gear by exactly one
step with the beep. -/
theorem pressureGear_in_range :
    (initSysState.pressureGear = 5 ∧ 1 ≤ initSysState.pressureGear ∧
      initSysState.pressureGear ≤ PRESSURE_NUM_GEARS) ∧
    (∀ g : ℕ, 1 ≤ g → g ≤ PRESSURE_NUM_GEARS →
      (1 ≤ (gearUpEvent g).1 ∧ (gearUpEvent g).1 ≤ PRESSURE_NUM_GEARS ∧
       1 ≤ (gearDownEvent g).1 ∧ (gearDownEvent g).1 ≤ PRESSURE_NUM_GEARS) ∧
      (g = PRESSURE_NUM_GEARS →
        (gearUpEvent g).1 = g ∧ (gearUpEvent g).2 = Tone.warning ∧
        (gearUpEvent g).2 ≠ Tone.beep) ∧
      (g = 1 →
        (gearDownEvent g).1 = g ∧ (gearDownEvent g).2 = Tone.warning ∧
        (gearDownEvent g).2 ≠ Tone.beep) ∧
      (g < PRESSURE_NUM_GEARS →
        (gearUpEvent g).1 = g + 1 ∧ (gearUpEvent g).2 = Tone.beep) ∧
      (1 < g →
        (gearDownEvent g).1 = g - 1 ∧ (gearDownEvent g).2 = Tone.beep)) ∧
    (∀ (s : Sys) (a b c : Bool),
      1 ≤ s.st.pressureGear → s.st.pressureGear ≤ PRESSURE_NUM_GEARS →
      1 ≤ ((uiCycle s a b c).1).st.pressureGear ∧
      ((uiCycle s a b c).1).st.pressureGear ≤ PRESSURE_NUM_GEARS) := by
  refine ⟨by decide, ?_, ?_⟩
  · intro g h1 h2
    have hC : g = PRESSURE_NUM_GEARS → (gearUpEvent g).1 = g ∧
        (gearUpEvent g).2 = Tone.warning ∧ (gearUpEvent g).2 ≠ Tone.beep := by
      intro hg
      subst hg
      unfold gearUpEvent
      rw [if_neg (lt_irrefl _)]
      exact ⟨rfl, rfl, by simp⟩
    have hD : g = 1 → (gearDownEvent g).1 = g ∧
        (gearDownEvent g).2 = Tone.warning ∧ (gearDownEvent g).2 ≠ Tone.beep := by
      intro hg
      subst hg
      unfold gearDownEvent
      rw [if_neg (lt_irrefl _)]
      exact ⟨rfl, rfl, by simp⟩
    have hE : g < PRESSURE_NUM_GEARS →
        (gearUpEvent g).1 = g + 1 ∧ (gearUpEvent g).2 = Tone.beep := by
      intro hg
      unfold gearUpEvent
      rw [if_pos hg]
      exact ⟨rfl, rfl⟩
    have hF : 1 < g →
        (gearDownEvent g).1 = g - 1 ∧ (gearDownEvent g).2 = Tone.beep := by
      intro hg
      unfold gearDownEvent
      rw [if_pos hg]
      exact ⟨rfl, rfl⟩
    exact ⟨⟨(gearUpEvent_bounds g h1 h2).1, (gearUpEvent_bounds g h1 h2).2,
            (gearDownEvent_bounds g h1 h2).1, (gearDownEvent_bounds g h1 h2).2⟩,
           hC, hD, hE, hF⟩
  · intro s a b c h1 h2
    have hs1 : ((uiStopPhase s a).1).st.pressureGear = s.st.pressureGear := by
      unfold uiStopPhase
      split_ifs <;> rfl
    have hup : ∀ (u : Sys) (b0 : Bool), 1 ≤ u.st.pressureGear →
        u.st.pressureGear ≤ PRESSURE_NUM_GEARS →
        1 ≤ ((uiGearUpPhase u b0).1).st.pressureGear ∧
        ((uiGearUpPhase u b0).1).st.pressureGear ≤ PRESSURE_NUM_GEARS := by
      intro u b0 hu1 hu2
      unfold uiGearUpPhase
      split_ifs
      · exact gearUpEvent_bounds _ hu1 hu2
      · exact ⟨hu1, hu2⟩
    have hdn : ∀ (u : Sys) (c0 : Bool), 1 ≤ u.st.pressureGear →
        u.st.pressureGear ≤ PRESSURE_NUM_GEARS →
        1 ≤ ((uiGearDownPhase u c0).1).st.pressureGear ∧
        ((uiGearDownPhase u c0).1).st.pressureGear ≤ PRESSURE_NUM_GEARS := by
      intro u c0 hu1 hu2
      unfold uiGearDownPhase
      split_ifs
      · exact gearDownEvent_bounds _ hu1 hu2
      · exact ⟨hu1, hu2⟩
    unfold uiCycle
    dsimp only
    exact hdn _ c
      (hup _ b (by rw [hs1]; exact h1) (by rw [hs1]; exact h2)).1
      (hup _ b (by rw [hs1]; exact h1) (by rw [hs1]; exact h2)).2

/-- Witness for C5: a gear-up event at gear 10 is rejected with the
warning tone, and a user-interface cycle from the startup state keeps the
gear in range. -/
theorem pressureGear_in_range_witness :
    ((gearUpEvent 10).1 = 10 ∧ (gearUpEvent 10).2 = Tone.warning ∧
      (gearUpEvent 10).2 ≠ Tone.beep) ∧
    1 ≤ ((uiCycle initSys false true false).1).st.pressureGear ∧
    ((uiCycle initSys false true false).1).st.pressureGear ≤ PRESSURE_NUM_GEARS :=
  ⟨(pressureGear_in_range.2.1 10 (by decide) (by decide)).2.1 rfl,
   (pressureGear_in_range.2.2 initSys false true false (by decide) (by decide)).1,
   (pressureGear_in_range.2.2 initSys false true false (by decide) (by decide)).2⟩

/-- `setSpeed` records a request that does not exceed 100 % verbatim. -/
theorem setSpeed_currentSpeed (q : PumpController) (n : ℕ) (hn : ¬100 < n) :
    (q.setSpeed n).currentSpeed = n := by
  unfold PumpController.setSpeed
  dsimp only
  rw [if_neg hn]
  split <;> rfl

/-- C7: in every enabled, non-emergency-stopped pressure-task cycle with a
valid reading, the target pressure becomes
`(pressureGear / PRESSURE_NUM_GEARS) × PRESSURE_TARGET_DEFAULT` and the
commanded pump speed is the three-level function of
`error = targetPressure - currentPressure`: 80 above +2.0, 40 below -2.0,
60 otherwise. -/
theorem pressureCycle_control_law (s : Sys) (p : ℚ) (m : Bool)
    (hen : s.st.systemEnabled = true) (hes : s.st.emergencyStop = false) :
    (pressureCycle s (some p) m).st.targetPressure
      = ((s.st.pressureGear : ℚ) / (PRESSURE_NUM_GEARS : ℚ)) * PRESSURE_TARGET_DEFAULT ∧
    (2 < ((s.st.pressureGear : ℚ) / (PRESSURE_NUM_GEARS : ℚ)) * PRESSURE_TARGET_DEFAULT - p →
      (pressureCycle s (some p) m).pump.currentSpeed = 80) ∧
    (((s.st.pressureGear : ℚ) / (PRESSURE_NUM_GEARS : ℚ)) * PRESSURE_TARGET_DEFAULT - p < -2 →
      (pressureCycle s (some p) m).pump.currentSpeed = 40) ∧
    (¬(2 < ((s.st.pressureGear : ℚ) / (PRESSURE_NUM_GEARS : ℚ)) * PRESSURE_TARGET_DEFAULT - p) →
      ¬(((s.st.pressureGear : ℚ) / (PRESSURE_NUM_GEARS : ℚ)) * PRESSURE_TARGET_DEFAULT - p < -2) →
      (pressureCycle s (some p) m).pump.currentSpeed = 60) := by
  have hcomm : PRESSURE_TARGET_DEFAULT * ((s.st.pressureGear : ℚ) / (PRESSURE_NUM_GEARS : ℚ))
      = ((s.st.pressureGear : ℚ) / (PRESSURE_NUM_GEARS : ℚ)) * PRESSURE_TARGET_DEFAULT :=
    mul_comm _ _
  unfold pressureCycle
  dsimp only
  cases m <;>
    · simp only [Bool.false_eq_true, if_true, if_false, ite_true, ite_false]
      rw [if_pos ⟨hen, hes⟩]
      refine ⟨hcomm, ?_, ?_, ?_⟩
      · intro h
        rw [if_pos (by rw [hcomm]; exact h)]
        exact setSpeed_currentSpeed _ 80 (by omega)
      · intro h
        rw [if_neg (by rw [hcomm]; linarith), if_pos (by rw [hcomm]; exact h)]
        exact setSpeed_currentSpeed _ 40 (by omega)
      · intro h1 h2
        rw [if_neg (by rw [hcomm]; exact h1), if_neg (by rw [hcomm]; exact h2)]
        exact setSpeed_currentSpeed _ 60 (by omega)

/-- Witness for C7: at the startup state (gear 5) with reading 0 the
target is 7.5 mmHg and the commanded speed is 80. -/
theorem pressureCycle_control_law_witness :
    (pressureCycle initSys (some 0) true).st.targetPressure
      = ((initSys.st.pressureGear : ℚ) / (PRESSURE_NUM_GEARS : ℚ)) * PRESSURE_TARGET_DEFAULT ∧
    (pressureCycle initSys (some 0) true).pump.currentSpeed = 80 :=
  ⟨(pressureCycle_control_law initSys 0 true rfl rfl).1,
   (pressureCycle_control_law initSys 0 true rfl rfl).2.1 (by
      norm_num [initSys, initSysState, PRESSURE_NUM_GEARS, PRESSURE_TARGET_DEFAULT])⟩

/-- C8 counterexample: an invocation that reaches the PID computation when
the millisecond clock reads 0 stores timestamp 0, which is exactly the
first-call sentinel, so the next invocation — 5000 ms later — uses
dt = 1.0 s instead of the actual elapsed 5.0 s. -/
theorem pidDt_zero_clock_not_elapsed :
    ((initHeating.enable.update 0 36).1).lastUpdateTime = 0 ∧
    pidDt ((initHeating.enable.update 0 36).1).lastUpdateTime 5000 = 1 ∧
    (1 : ℚ) ≠ ((5000 : ℚ) - 0) / 1000 := by
  refine ⟨rfl, rfl, by norm_num⟩

/-- C8 amended: when the previous PID-reaching invocation stored a nonzero
timestamp, `dt` is the actual elapsed time in seconds derived from the
millisecond clock (32-bit wraparound subtraction divided by 1000); the
first invocation (sentinel timestamp 0) uses dt = 1.0 s; and an invocation
that reaches the PID computation stores the current clock value — so an
invocation at clock value 0 re-arms the first-call sentinel and the next
invocation uses dt = 1.0 s again. -/
theorem pidDt_elapsed (last now : ℕ) (h0 : last ≠ 0) (hle : last ≤ now)
    (hlt : now < 4294967296) :
    pidDt last now = ((now - last : ℕ) : ℚ) / 1000 ∧
    pidDt 0 now = 1 ∧
    ∀ (c : HeatingController) (t : ℚ), c.enabled = true → t < TEMP_EMERGENCY_STOP →
      ((c.update now t).1).lastUpdateTime = now % 4294967296 := by
  refine ⟨?_, rfl, ?_⟩
  · unfold pidDt
    rw [if_neg h0]
    have hms : (now % 4294967296 + (4294967296 - last % 4294967296)) % 4294967296
        = now - last := by omega
    rw [hms]
  · intro c t hen ht
    unfold HeatingController.update
    rw [if_neg (by rw [hen]; simp), if_neg (not_le.mpr ht)]
    rfl

/-- Witness for the amended C8 at timestamps 1000 ms and 3500 ms. -/
theorem pidDt_elapsed_witness :
    pidDt 1000 3500 = ((3500 - 1000 : ℕ) : ℚ) / 1000 ∧
    pidDt 0 3500 = 1 ∧
    ((initHeating.enable.update 3500 36).1).lastUpdateTime = 3500 % 4294967296 :=
  ⟨(pidDt_elapsed 1000 3500 (by decide) (by decide) (by decide)).1,
   (pidDt_elapsed 1000 3500 (by decide) (by decide) (by decide)).2.1,
   (pidDt_elapsed 1000 3500 (by decide) (by decide) (by decide)).2.2
     initHeating.enable 36 rfl (by norm_num [TEMP_EMERGENCY_STOP])⟩

/-- C9 counterexample: `setPID` zeroes the accumulated integral (here from
7 to 0) although it is none of the four reset triggers the claim
enumerates (enable, target change, emergency stop, explicit reset); it
leaves `lastError` untouched. -/
theorem setPID_clears_integral :
    (({ initHeating with integral := 7, lastError := 3 }).setPID 30 1 6).integral = 0 ∧
    ({ initHeating with integral := 7, lastError := 3 }).integral = 7 ∧
    (({ initHeating with integral := 7, lastError := 3 }).setPID 30 1 6).lastError = 3 :=
  ⟨rfl, rfl, rfl⟩

/-- C9 amended: while the controller is disabled, `update` returns 0,
writes duty 0, and leaves `integral` and `lastError` unchanged; `disable`
itself also leaves them unchanged; they are reset on re-enable, on an
accepted target change, on an emergency stop, and on an explicit `reset` —
and additionally `setPID` zeroes `integral` (though not `lastError`). -/
theorem disabled_update_frame (c : HeatingController) (now : ℕ) (t tgt p i d : ℚ)
    (hdis : c.enabled = false) :
    ((c.update now t).2 = 0 ∧
     ((c.update now t).1).pwm = 0 ∧
     ((c.update now t).1).currentOutput = 0 ∧
     ((c.update now t).1).integral = c.integral ∧
     ((c.update now t).1).lastError = c.lastError) ∧
    (c.disable.integral = c.integral ∧ c.disable.lastError = c.lastError ∧
     c.disable.enabled = false ∧ c.disable.pwm = 0 ∧ c.disable.currentOutput = 0) ∧
    (c.enable.integral = 0 ∧ c.enable.lastError = 0) ∧
    (TEMP_MIN_LIMIT ≤ tgt → tgt ≤ TEMP_MAX_LIMIT →
      (c.setTargetTemperature tgt).integral = 0 ∧
      (c.setTargetTemperature tgt).lastError = 0 ∧
      (c.setTargetTemperature tgt).targetTemp = tgt) ∧
    (c.emergencyStop.integral = 0 ∧ c.emergencyStop.lastError = 0) ∧
    (c.reset.integral = 0 ∧ c.reset.lastError = 0) ∧
    ((c.setPID p i d).integral = 0 ∧ (c.setPID p i d).lastError = c.lastError) := by
  have hup : (c.update now t)
      = ({ c with currentOutput := 0, pwm := 0 }, 0) := by
    unfold HeatingController.update
    rw [if_pos hdis]
  refine ⟨?_, ⟨rfl, rfl, rfl, rfl, rfl⟩, ⟨rfl, rfl⟩, ?_, ⟨rfl, rfl⟩, ⟨rfl, rfl⟩,
    ⟨rfl, rfl⟩⟩
  · rw [hup]
    exact ⟨rfl, rfl, rfl, rfl, rfl⟩
  · intro hlo hhi
    unfold HeatingController.setTargetTemperature
    rw [if_pos ⟨hlo, hhi⟩]
    exact ⟨rfl, rfl, rfl⟩

/-- Witness for the amended C9 at the constructor state (disabled, target
40 °C). -/
theorem disabled_update_frame_witness :
    ((initHeating.update 700 39).2 = 0 ∧
     ((initHeating.update 700 39).1).pwm = 0 ∧
     ((initHeating.update 700 39).1).currentOutput = 0 ∧
     ((initHeating.update 700 39).1).integral = initHeating.integral ∧
     ((initHeating.update 700 39).1).lastError = initHeating.lastError) ∧
    (initHeating.setTargetTemperature 38).integral = 0 ∧
    (initHeating.setPID 30 1 6).integral = 0 :=
  ⟨(disabled_update_frame initHeating 700 39 38 30 1 6 rfl).1,
   ((disabled_update_frame initHeating 700 39 38 30 1 6 rfl).2.2.2.1
      (by norm_num [TEMP_MIN_LIMIT]) (by norm_num [TEMP_MAX_LIMIT])).1,
   (disabled_update_frame initHeating 700 39 38 30 1 6 rfl).2.2.2.2.2.2.1⟩

/-- Witness for C10 at the concrete byte triple (0xAB, 0x01, 0x02). -/
theorem readRaw24bit_range_witness :
    -8388608 ≤ readRaw24bit (some (171, 1, 2)) ∧
    readRaw24bit (some (171, 1, 2)) ≤ 8388607 ∧
    readRaw24bit (some (171, 1, 2)) ≠ ERROR_SENTINEL ∧
    (convertToPressure 0 (readRaw24bit (some (171, 1, 2)))).isSome = true ∧
    readRaw24bit none = ERROR_SENTINEL ∧
    convertToPressure 0 ERROR_SENTINEL = none ∧
    (8388607 : ℤ) < ERROR_SENTINEL :=
  readRaw24bit_range 171 1 2 (by decide) (by decide) (by decide) 0

end NPG
